import Mathlib

/-
Verification of the transaction-feed pagination controller of the
aptos-portfolio explorer (src/app/page.tsx, component AccountTransactions).

The controller keeps a list of transaction records fetched from two
backends: an indexed GraphQL service (page size 100, offset-based) and a
node REST endpoint (limit 1000000, version-cursor based).  The model
below is a shallow embedding of that code: React useState fields become
the fields of FeedState, each async handler is split into a synchronous
start phase (guard check plus request emission) and a resolve phase
(processing the response), and the helper functions are translated
directly.
-/

namespace AptosPortfolio

/- Page size of the indexed (GraphQL) backend: `const pageSize = 100`. -/
def pageSize : Nat := 100

/- A transaction record in the shape delivered by the GraphQL query
GET_ACCOUNT_TRANSACTIONS and kept in `allTransactions`:
transaction_version, __typename (modelled as `typename`), and the
user_transaction object which is either `{ sender }` or null
(modelled as `Option String` holding the sender). -/
structure TxRecord where
  transaction_version : Int
  typename : String
  user_transaction : Option String
  deriving Repr, DecidableEq

/- A raw transaction as delivered by the node REST endpoint
`/v1/accounts/{address}/transactions`: version, type and sender fields
of the JSON payload (the fields the code reads). -/
structure RestTx where
  version : Int
  type : String
  sender : String
  deriving Repr, DecidableEq

/- The JSON body of a REST response: either an array of transactions or
some non-array value (the code checks `Array.isArray`). -/
inductive RestBody where
  | arr (txs : List RestTx)
  | nonArray
  deriving Repr, DecidableEq

/- Outcome of the `fetch` call in getAccountTransactionsRest:
either the fetch (or json decoding) threw, or a response arrived with an
ok flag (`response.ok`) and a body. -/
inductive FetchResult where
  | fail
  | resp (ok : Bool) (body : RestBody)
  deriving Repr, DecidableEq

/- getAccountTransactionsRest (page.tsx lines 71-94): on a non-ok
response it throws, and the catch returns []; on a thrown fetch it
returns []; on a non-array body it returns []; otherwise the array. -/
def getAccountTransactionsRest : FetchResult → List RestTx
  | .fail => []
  | .resp ok body =>
    if ok then
      match body with
      | .arr txs => txs
      | .nonArray => []
    else []

/- The React state of AccountTransactions (page.tsx lines 101-107):
allTransactions, currentPage, isLoadingMore, hasMore, useRestAPI,
restStartVersion. -/
structure FeedState where
  allTransactions : List TxRecord
  currentPage : Nat
  isLoadingMore : Bool
  hasMore : Bool
  useRestAPI : Bool
  restStartVersion : Option Int
  deriving Repr, DecidableEq

/- The initial state of the component (useState initialisers). -/
def initialFeed : FeedState :=
  { allTransactions := []
  , currentPage := 0
  , isLoadingMore := false
  , hasMore := true
  , useRestAPI := false
  , restStartVersion := none }

/- A network request issued by the controller: either a GraphQL
fetchMore with limit and offset, or a REST fetch with an optional start
version. -/
inductive Request where
  | graphql (address : String) (limit offset : Nat)
  | rest (address : String) (start : Option Int)
  deriving Repr, DecidableEq

/- Formatting of a REST transaction into the GraphQL record shape
(page.tsx lines 132-136). -/
def formatRestTx (tx : RestTx) : TxRecord :=
  { transaction_version := tx.version
  , typename := if tx.type == "user_transaction" then "UserTransaction" else "SystemTransaction"
  , user_transaction := if tx.type == "user_transaction" then some tx.sender else none }

/- Math.min over the transaction_version fields of held records, as in
`Math.min(...allTransactions.map(tx => parseInt(tx.transaction_version)))`
(line 185).  Only applied to non-empty lists by the code; the value on
[] is a junk default. -/
def minVersions (txs : List TxRecord) : Int :=
  match txs with
  | [] => 0
  | t :: rest => (rest.map (fun r => r.transaction_version)).foldl min t.transaction_version

/- Math.min over the version fields of a REST page, as in
`Math.min(...restTransactions.map(tx => parseInt(tx.version)))` (line 141). -/
def minRestVersions (txs : List RestTx) : Int :=
  match txs with
  | [] => 0
  | t :: rest => (rest.map (fun r => r.version)).foldl min t.version

/- Synchronous prefix of loadMoreWithRest (lines 122-128): the guard
`if (isLoadingMore || !hasMore) return;`, then setIsLoadingMore(true)
and the REST request with the current restStartVersion. -/
def loadMoreWithRestStart (address : String) (s : FeedState) : FeedState × Option Request :=
  if s.isLoadingMore || !s.hasMore then (s, none)
  else ({ s with isLoadingMore := true }, some (Request.rest address s.restStartVersion))

/- Resolution of a REST fetch inside loadMoreWithRest (lines 130-154),
taking the list returned by getAccountTransactionsRest: a non-empty page
is formatted and appended, the cursor becomes the oldest version minus
one, and hasMore is length >= 1000; an empty page sets hasMore false.
The finally clause clears isLoadingMore. -/
def loadMoreWithRestResolve (restTransactions : List RestTx) (s : FeedState) : FeedState :=
  if restTransactions.length > 0 then
    { s with
      allTransactions := s.allTransactions ++ restTransactions.map formatRestTx
    , restStartVersion := some (minRestVersions restTransactions - 1)
    , hasMore := decide (1000 ≤ restTransactions.length)
    , isLoadingMore := false }
  else
    { s with hasMore := false, isLoadingMore := false }

/- Synchronous prefix of loadMoreWithGraphQL (lines 157-170): the same
guard, then setIsLoadingMore(true) and a fetchMore request at offset
(currentPage + 1) * pageSize. -/
def loadMoreWithGraphQLStart (address : String) (s : FeedState) : FeedState × Option Request :=
  if s.isLoadingMore || !s.hasMore then (s, none)
  else ({ s with isLoadingMore := true },
        some (Request.graphql address pageSize ((s.currentPage + 1) * pageSize)))

/- Outcome of the fetchMore promise: success carries the list
`result.data?.account_transactions || []`; failure is a rejection
caught by the catch block. -/
inductive GraphQLOutcome where
  | success (txs : List TxRecord)
  | failure
  deriving Repr, DecidableEq

/- Resolution of the fetchMore inside loadMoreWithGraphQL
(lines 172-198).  A non-empty page is appended, currentPage advances,
and hasMore is length === pageSize.  An empty page switches to the REST
backend: restStartVersion becomes the oldest held version minus one when
records are held (otherwise it is left untouched), and hasMore is set
true.  The catch block sets useRestAPI true and hasMore true without
touching restStartVersion.  The finally clause clears isLoadingMore. -/
def loadMoreWithGraphQLResolve (outcome : GraphQLOutcome) (s : FeedState) : FeedState :=
  match outcome with
  | .success newTransactions =>
    if newTransactions.length > 0 then
      { s with
        allTransactions := s.allTransactions ++ newTransactions
      , currentPage := s.currentPage + 1
      , hasMore := decide (newTransactions.length = pageSize)
      , isLoadingMore := false }
    else
      { s with
        useRestAPI := true
      , restStartVersion :=
          if s.allTransactions.length > 0 then
            some (minVersions s.allTransactions - 1)
          else s.restStartVersion
      , hasMore := true
      , isLoadingMore := false }
  | .failure =>
    { s with useRestAPI := true, hasMore := true, isLoadingMore := false }

/- loadMoreTransactions (lines 201-207): dispatch on useRestAPI. -/
def loadMoreTransactionsStart (address : String) (s : FeedState) : FeedState × Option Request :=
  if s.useRestAPI then loadMoreWithRestStart address s
  else loadMoreWithGraphQLStart address s

/- onCompleted of the initial useQuery (lines 114-119): when data holds
an account_transactions list, store it and set hasMore to
length === pageSize. -/
def onCompletedIndexed (txs : List TxRecord) (s : FeedState) : FeedState :=
  { s with allTransactions := txs, hasMore := decide (txs.length = pageSize) }

/- The address-change reset effect (lines 210-216): empties the record
list, zeroes the page counter, restores hasMore, returns to the indexed
backend and clears the REST cursor.  isLoadingMore is not touched by
the effect. -/
def resetFeed (s : FeedState) : FeedState :=
  { s with
    allTransactions := []
  , currentPage := 0
  , hasMore := true
  , useRestAPI := false
  , restStartVersion := none }

/- Semantics of the GET_ACCOUNT_TRANSACTIONS query against a server
holding serverTxs (already ordered by version desc): offset-based
pagination with the given limit. -/
def indexedFetch (serverTxs : List TxRecord) (limit offset : Nat) : List TxRecord :=
  (serverTxs.drop offset).take limit

/- The events that can act on the feed state within one address
session: a load-more click (start phase), resolution of an in-flight
GraphQL or REST fetch, completion of the initial query, and the manual
Try-REST-API button (line 244, setUseRestAPI(true)). -/
inductive FeedEvent where
  | loadMore
  | graphqlResolve (o : GraphQLOutcome)
  | restResolve (txs : List RestTx)
  | queryCompleted (txs : List TxRecord)
  | forceRest
  deriving Repr, DecidableEq

/- One event step: the resulting state and the request it emits, if any. -/
def feedStep (address : String) (e : FeedEvent) (s : FeedState) : FeedState × Option Request :=
  match e with
  | .loadMore => loadMoreTransactionsStart address s
  | .graphqlResolve o => (loadMoreWithGraphQLResolve o s, none)
  | .restResolve txs => (loadMoreWithRestResolve txs s, none)
  | .queryCompleted txs => (onCompletedIndexed txs s, none)
  | .forceRest => ({ s with useRestAPI := true }, none)

/- Run a list of events, collecting every request issued along the way. -/
def runEvents (address : String) (es : List FeedEvent) (s : FeedState) : FeedState × List Request :=
  match es with
  | [] => (s, [])
  | e :: rest =>
    let p := feedStep address e s
    let q := runEvents address rest p.1
    (q.1, p.2.toList ++ q.2)

/- A concrete record and state used to instantiate universally
quantified theorems on explicit inputs. -/
def sampleHeldTx : TxRecord :=
  { transaction_version := 600, typename := "UserTransaction", user_transaction := some "0xS" }

def sampleState : FeedState :=
  { allTransactions := [sampleHeldTx]
  , currentPage := 0
  , isLoadingMore := true
  , hasMore := true
  , useRestAPI := false
  , restStartVersion := none }

/- Helper: every single event preserves useRestAPI = true. -/
theorem useRest_feedStep (address : String) (e : FeedEvent) (s : FeedState)
    (h : s.useRestAPI = true) : (feedStep address e s).1.useRestAPI = true := by
  cases e with
  | loadMore =>
    simp only [feedStep, loadMoreTransactionsStart, h, if_true, loadMoreWithRestStart]
    split <;> simp [h]
  | graphqlResolve o =>
    cases o with
    | success txs =>
      simp only [feedStep, loadMoreWithGraphQLResolve]
      split <;> simp [h]
    | failure => simp [feedStep, loadMoreWithGraphQLResolve]
  | restResolve txs =>
    simp only [feedStep, loadMoreWithRestResolve]
    split <;> simp [h]
  | queryCompleted txs => simpa [feedStep, onCompletedIndexed] using h
  | forceRest => simp [feedStep]

/- Tests whether a request is a REST request aimed at the given
address. -/
def isRestRequestFor (address : String) : Request → Bool
  | .rest a _ => a == address
  | .graphql _ _ _ => false

/- Helper: with useRestAPI = true, a single event emits at most a REST
request for the current address. -/
theorem request_feedStep (address : String) (e : FeedEvent) (s : FeedState)
    (h : s.useRestAPI = true) :
    ∀ r ∈ (feedStep address e s).2.toList, isRestRequestFor address r = true := by
  cases e with
  | loadMore =>
    simp only [feedStep, loadMoreTransactionsStart, h, if_true, loadMoreWithRestStart]
    split
    · simp
    · intro r hr
      simp only [Option.toList_some, List.mem_singleton] at hr
      subst hr
      simp [isRestRequestFor]
  | graphqlResolve o => simp [feedStep]
  | restResolve txs => simp [feedStep]
  | queryCompleted txs => simp [feedStep]
  | forceRest => simp [feedStep]

/- Helper: runEvents preserves useRestAPI = true and, starting from a
state on the REST backend, only REST requests for the given address are
ever issued. -/
theorem useRest_runEvents (address : String) (es : List FeedEvent) (s : FeedState)
    (h : s.useRestAPI = true) :
    (runEvents address es s).1.useRestAPI = true ∧
    ∀ r ∈ (runEvents address es s).2, isRestRequestFor address r = true := by
  induction es generalizing s with
  | nil => simp [runEvents, h]
  | cons e rest ih =>
    have h1 := useRest_feedStep address e s h
    have h2 := request_feedStep address e s h
    have ih1 := ih (feedStep address e s).1 h1
    refine ⟨by simpa [runEvents] using ih1.1, ?_⟩
    intro r hr
    simp only [runEvents, List.mem_append] at hr
    rcases hr with hr | hr
    · exact h2 r hr
    · exact ih1.2 r hr

/- Helper: when hasMore is false, every load-more dispatch is a no-op
emitting no request. -/
theorem loadMore_noop_of_not_hasMore (address : String) (s : FeedState)
    (h : s.hasMore = false) :
    loadMoreTransactionsStart address s = (s, none) := by
  simp [loadMoreTransactionsStart, loadMoreWithRestStart, loadMoreWithGraphQLStart, h]

/- Helper: when a fetch is in flight, every load-more dispatch is a
no-op emitting no request. -/
theorem loadMore_noop_of_inflight (address : String) (s : FeedState)
    (h : s.isLoadingMore = true) :
    loadMoreTransactionsStart address s = (s, none) := by
  simp [loadMoreTransactionsStart, loadMoreWithRestStart, loadMoreWithGraphQLStart, h]

/-- Claim C10: the REST page fetcher is a total function into lists: a
thrown transport error, a non-ok HTTP response, and a non-array JSON
body each yield the empty list, and an array body is returned as is, so
a failed fetch is indistinguishable from a genuinely empty page. -/
theorem getAccountTransactionsRest_total (b : RestBody) (txs : List RestTx) :
    getAccountTransactionsRest FetchResult.fail = [] ∧
    getAccountTransactionsRest (FetchResult.resp false b) = [] ∧
    getAccountTransactionsRest (FetchResult.resp true RestBody.nonArray) = [] ∧
    getAccountTransactionsRest (FetchResult.resp true (RestBody.arr txs)) = txs := by
  refine ⟨rfl, ?_, rfl, rfl⟩
  cases b <;> rfl

/-- Claim C7: the address-change reset empties the record list, zeroes
the page counter, returns to the indexed backend, clears the REST
cursor and clears the exhausted flag (hasMore becomes true). -/
theorem resetFeed_resets (s : FeedState) :
    (resetFeed s).allTransactions = [] ∧
    (resetFeed s).currentPage = 0 ∧
    (resetFeed s).useRestAPI = false ∧
    (resetFeed s).restStartVersion = none ∧
    (resetFeed s).hasMore = true := by
  simp [resetFeed]

/-- Claim C8: every REST transaction is normalized into the indexed
record shape: its typename is UserTransaction exactly when the node
reports type user_transaction, in which case the sender is copied into
the user_transaction field; otherwise the record carries no sender and
is classified SystemTransaction; the version is carried over. -/
theorem formatRestTx_normalizes (tx : RestTx) :
    ((formatRestTx tx).typename = "UserTransaction" ↔ tx.type = "user_transaction") ∧
    (tx.type = "user_transaction" → (formatRestTx tx).user_transaction = some tx.sender) ∧
    (tx.type ≠ "user_transaction" →
      (formatRestTx tx).user_transaction = none ∧
      (formatRestTx tx).typename = "SystemTransaction") ∧
    (formatRestTx tx).transaction_version = tx.version := by
  by_cases h : tx.type = "user_transaction" <;>
    simp [formatRestTx, h]

/-- Witness for C8: the normalization evaluated on a concrete user
transaction and a concrete system transaction. -/
theorem formatRestTx_normalizes_witness :
    (formatRestTx { version := 5, type := "user_transaction", sender := "0xS" }).user_transaction
      = some "0xS" ∧
    (formatRestTx { version := 6, type := "state_checkpoint_transaction", sender := "0xT" }).user_transaction
      = none := by
  refine ⟨?_, ?_⟩
  · exact (formatRestTx_normalizes
      { version := 5, type := "user_transaction", sender := "0xS" }).2.1 rfl
  · exact ((formatRestTx_normalizes
      { version := 6, type := "state_checkpoint_transaction", sender := "0xT" }).2.2.1
      (by decide)).1

/-- Claim C2: starting from a state with no fetch in flight and hasMore
true, a load-more call issues a request and flips the in-flight flag, so
a second call before the first resolves is a no-op issuing nothing
(exactly one network call), and in general every load-more call is a
no-op with no request whenever a fetch is in flight or hasMore is
false. -/
theorem loadMore_inflight_guard (address : String) (s : FeedState)
    (hload : s.isLoadingMore = false) (hmore : s.hasMore = true) :
    (loadMoreTransactionsStart address s).2.isSome = true ∧
    loadMoreTransactionsStart address (loadMoreTransactionsStart address s).1
      = ((loadMoreTransactionsStart address s).1, none) ∧
    ∀ t : FeedState, t.isLoadingMore = true ∨ t.hasMore = false →
      loadMoreTransactionsStart address t = (t, none) := by
  have hnoop : ∀ t : FeedState, t.isLoadingMore = true ∨ t.hasMore = false →
      loadMoreTransactionsStart address t = (t, none) := by
    intro t ht
    rcases ht with ht | ht
    · exact loadMore_noop_of_inflight address t ht
    · exact loadMore_noop_of_not_hasMore address t ht
  refine ⟨?_, ?_, hnoop⟩
  · by_cases hu : s.useRestAPI <;>
      simp [loadMoreTransactionsStart, loadMoreWithRestStart, loadMoreWithGraphQLStart,
        hload, hmore, hu]
  · apply hnoop
    left
    by_cases hu : s.useRestAPI <;>
      simp [loadMoreTransactionsStart, loadMoreWithRestStart, loadMoreWithGraphQLStart,
        hload, hmore, hu]

/-- Witness for C2: the guard evaluated from the initial state. -/
theorem loadMore_inflight_guard_witness :
    (loadMoreTransactionsStart "0xA" initialFeed).2.isSome = true ∧
    loadMoreTransactionsStart "0xA" (loadMoreTransactionsStart "0xA" initialFeed).1
      = ((loadMoreTransactionsStart "0xA" initialFeed).1, none) := by
  have h := loadMore_inflight_guard "0xA" initialFeed rfl rfl
  exact ⟨h.1, h.2.1⟩

/-- Claim C4: a successful indexed load-more (the fetchMore at offset
(currentPage + 1) * pageSize against any server list) leaves the held
record list non-decreasing, grows it by at most pageSize records, and
appends the fetched records after the already-held ones without
replacing them. -/
theorem graphql_success_appends (server : List TxRecord) (s : FeedState) :
    s.allTransactions.length ≤
      (loadMoreWithGraphQLResolve
        (.success (indexedFetch server pageSize ((s.currentPage + 1) * pageSize)))
        s).allTransactions.length ∧
    (loadMoreWithGraphQLResolve
        (.success (indexedFetch server pageSize ((s.currentPage + 1) * pageSize)))
        s).allTransactions.length ≤ s.allTransactions.length + pageSize ∧
    ∃ t : List TxRecord, t.length ≤ pageSize ∧
      (loadMoreWithGraphQLResolve
        (.success (indexedFetch server pageSize ((s.currentPage + 1) * pageSize)))
        s).allTransactions = s.allTransactions ++ t := by
  have hlen : (indexedFetch server pageSize ((s.currentPage + 1) * pageSize)).length ≤ pageSize := by
    simp only [indexedFetch, List.length_take]
    exact Nat.min_le_left _ _
  simp only [loadMoreWithGraphQLResolve]
  split
  · refine ⟨?_, ?_, indexedFetch server pageSize ((s.currentPage + 1) * pageSize), hlen, rfl⟩
    · simp
    · simp only [List.length_append]
      omega
  · exact ⟨Nat.le_refl _, Nat.le_add_right _ _, [], by simp⟩

/- A concrete indexed page of 37 records, shorter than pageSize but
non-empty, matching the example in the claim. -/
def shortPage : List TxRecord :=
  (List.range 37).map (fun i =>
    { transaction_version := 500 - (i : Int)
    , typename := "UserTransaction"
    , user_transaction := some "0xS" })

/-- Counterexample to C1: an indexed fetch returning 37 records (fewer
than pageSize = 100, but non-empty) does NOT make the next load-more
call query the Rest backend: it sets hasMore to false while leaving the
backend Indexed, so the next load-more call is a no-op issuing no
request at all. -/
theorem indexed_short_page_no_rest_switch :
    shortPage.length = 37 ∧ 0 < shortPage.length ∧ shortPage.length < pageSize ∧
    (loadMoreWithGraphQLResolve (.success shortPage) sampleState).useRestAPI = false ∧
    (loadMoreWithGraphQLResolve (.success shortPage) sampleState).hasMore = false ∧
    loadMoreTransactionsStart "0xA" (loadMoreWithGraphQLResolve (.success shortPage) sampleState)
      = (loadMoreWithGraphQLResolve (.success shortPage) sampleState, none) := by
  decide

/-- Amended C1: only an indexed load-more fetch that returns ZERO
records makes the next load-more call query the Rest backend, with
startVersion equal to the minimum held version minus 1 (when records
are held); an indexed fetch that returns a non-empty page shorter than
pageSize instead clears hasMore, so the next load-more call is a no-op
and the Rest backend is not queried. -/
theorem indexed_empty_page_triggers_rest (address : String) (s : FeedState)
    (resp : List TxRecord) (hshort : resp.length < pageSize) :
    (resp = [] → s.allTransactions ≠ [] →
      loadMoreTransactionsStart address (loadMoreWithGraphQLResolve (.success resp) s)
        = ({ loadMoreWithGraphQLResolve (.success resp) s with isLoadingMore := true },
           some (Request.rest address (some (minVersions s.allTransactions - 1))))) ∧
    (resp ≠ [] →
      loadMoreTransactionsStart address (loadMoreWithGraphQLResolve (.success resp) s)
        = (loadMoreWithGraphQLResolve (.success resp) s, none)) := by
  constructor
  · rintro rfl hne
    have hlen : s.allTransactions.length > 0 := List.length_pos.mpr hne
    simp [loadMoreWithGraphQLResolve, loadMoreTransactionsStart, loadMoreWithRestStart, hlen]
  · intro hne
    have hpos : resp.length > 0 := List.length_pos.mpr hne
    have hm : (loadMoreWithGraphQLResolve (.success resp) s).hasMore = false := by
      have hne2 : resp.length ≠ pageSize := Nat.ne_of_lt hshort
      simp [loadMoreWithGraphQLResolve, hpos, hne2]
    exact loadMore_noop_of_not_hasMore address _ hm

/-- Witness for the amended C1: after an empty indexed page with one
record held at version 600, the next load-more call issues a REST
request with start version 599. -/
theorem indexed_empty_page_triggers_rest_witness :
    loadMoreTransactionsStart "0xA" (loadMoreWithGraphQLResolve (.success []) sampleState)
      = ({ loadMoreWithGraphQLResolve (.success []) sampleState with isLoadingMore := true },
         some (Request.rest "0xA" (some (minVersions sampleState.allTransactions - 1)))) :=
  (indexed_empty_page_triggers_rest "0xA" sampleState [] (by decide)).1 rfl (by decide)

/-- Counterexample to C3: a switch from Indexed to Rest caused by a
fetch FAILURE leaves the Rest cursor untouched (none) even though a
record at version 600 is held, instead of setting it to 599 as the
claim states for every switch. -/
theorem failure_switch_keeps_cursor :
    sampleState.allTransactions ≠ [] ∧
    (loadMoreWithGraphQLResolve .failure sampleState).useRestAPI = true ∧
    (loadMoreWithGraphQLResolve .failure sampleState).restStartVersion = none ∧
    (loadMoreWithGraphQLResolve .failure sampleState).restStartVersion ≠
      some (minVersions sampleState.allTransactions - 1) := by
  decide

/-- Amended C3: when the switch to Rest is caused by an EMPTY indexed
page, the cursor is set to min(held versions) - 1 when records are held
and left unchanged (omitted) otherwise; when the switch is caused by a
fetch failure, the cursor is always left unchanged (so the Rest pass
starts from the newest transaction), regardless of held records. -/
theorem rest_switch_cursor (s : FeedState) :
    (s.allTransactions ≠ [] →
      (loadMoreWithGraphQLResolve (.success []) s).restStartVersion
        = some (minVersions s.allTransactions - 1)) ∧
    (s.allTransactions = [] →
      (loadMoreWithGraphQLResolve (.success []) s).restStartVersion = s.restStartVersion) ∧
    (loadMoreWithGraphQLResolve .failure s).restStartVersion = s.restStartVersion ∧
    (loadMoreWithGraphQLResolve (.success []) s).useRestAPI = true ∧
    (loadMoreWithGraphQLResolve .failure s).useRestAPI = true := by
  refine ⟨?_, ?_, rfl, ?_, rfl⟩
  · intro h
    have hlen : s.allTransactions.length > 0 := List.length_pos.mpr h
    simp [loadMoreWithGraphQLResolve, hlen]
  · intro h
    simp [loadMoreWithGraphQLResolve, h]
  · simp [loadMoreWithGraphQLResolve]

/-- Witness for the amended C3: evaluated on a state holding one record
at version 600. -/
theorem rest_switch_cursor_witness :
    (loadMoreWithGraphQLResolve (.success []) sampleState).restStartVersion
      = some (minVersions sampleState.allTransactions - 1) ∧
    (loadMoreWithGraphQLResolve .failure sampleState).restStartVersion
      = sampleState.restStartVersion :=
  ⟨(rest_switch_cursor sampleState).1 (by decide),
   (rest_switch_cursor sampleState).2.2.1⟩

/-- Claim C5: a failed indexed fetch switches the controller to the
Rest backend (useRestAPI true, hasMore true); the next load-more call
then issues a REST request, and from that point on, across any sequence
of events within the same address session, the backend stays Rest and
every request ever issued is a REST request: the indexed backend is
never retried. -/
theorem graphql_failure_switches (address : String) (s : FeedState) :
    (loadMoreWithGraphQLResolve .failure s).useRestAPI = true ∧
    (loadMoreWithGraphQLResolve .failure s).hasMore = true ∧
    loadMoreTransactionsStart address (loadMoreWithGraphQLResolve .failure s)
      = ({ loadMoreWithGraphQLResolve .failure s with isLoadingMore := true },
         some (Request.rest address s.restStartVersion)) ∧
    ∀ es : List FeedEvent,
      (runEvents address es (loadMoreWithGraphQLResolve .failure s)).1.useRestAPI = true ∧
      ∀ r ∈ (runEvents address es (loadMoreWithGraphQLResolve .failure s)).2,
        isRestRequestFor address r = true := by
  refine ⟨rfl, rfl, ?_, fun es => useRest_runEvents address es _ rfl⟩
  simp [loadMoreTransactionsStart, loadMoreWithRestStart, loadMoreWithGraphQLResolve]

/-- Witness for C5: the failure switch evaluated from the initial
state; the one request issued by a subsequent load-more is a REST
request. -/
theorem graphql_failure_switches_witness :
    (loadMoreWithGraphQLResolve .failure initialFeed).useRestAPI = true ∧
    (runEvents "0xA" [FeedEvent.loadMore]
        (loadMoreWithGraphQLResolve .failure initialFeed)).1.useRestAPI = true ∧
    isRestRequestFor "0xA" (Request.rest "0xA" none) = true := by
  have h := graphql_failure_switches "0xA" initialFeed
  refine ⟨h.1, (h.2.2.2 [FeedEvent.loadMore]).1, ?_⟩
  exact (h.2.2.2 [FeedEvent.loadMore]).2 (Request.rest "0xA" none) (by decide)

/-- Claim C6: a Rest fetch returning fewer than 1000 records (in
particular zero records, or the empty list a transport failure is
mapped to) clears hasMore, and every subsequent load-more call (also
iterated any number of times) is a no-op issuing no request and leaving
the state, records included, unchanged. -/
theorem rest_short_page_exhausts (s : FeedState) (txs : List RestTx)
    (h : txs.length < 1000) :
    (loadMoreWithRestResolve txs s).hasMore = false ∧
    (loadMoreWithRestResolve (getAccountTransactionsRest FetchResult.fail) s).hasMore = false ∧
    (∀ address, loadMoreTransactionsStart address (loadMoreWithRestResolve txs s)
        = (loadMoreWithRestResolve txs s, none)) ∧
    (∀ address n,
      Nat.iterate (fun t => (loadMoreTransactionsStart address t).1) n
          (loadMoreWithRestResolve txs s)
        = loadMoreWithRestResolve txs s) := by
  have h1 : (loadMoreWithRestResolve txs s).hasMore = false := by
    simp only [loadMoreWithRestResolve]
    split
    · simp only [decide_eq_false_iff_not]
      omega
    · rfl
  refine ⟨h1, by simp [getAccountTransactionsRest, loadMoreWithRestResolve], ?_, ?_⟩
  · intro address
    exact loadMore_noop_of_not_hasMore address _ h1
  · intro address n
    induction n with
    | zero => rfl
    | succ k ih =>
      rw [Function.iterate_succ_apply', ih]
      show (loadMoreTransactionsStart address (loadMoreWithRestResolve txs s)).1 = _
      rw [loadMore_noop_of_not_hasMore address _ h1]

/-- Witness for C6: a single-record Rest page (12 would do equally)
evaluated on the sample state marks the feed exhausted. -/
theorem rest_short_page_exhausts_witness :
    (loadMoreWithRestResolve [{ version := 7, type := "user_transaction", sender := "0xS" }]
        sampleState).hasMore = false :=
  (rest_short_page_exhausts sampleState
    [{ version := 7, type := "user_transaction", sender := "0xS" }] (by decide)).1

/-- Claim C9: the backend switch is one-way within an address session:
from any state already on the Rest backend, no sequence of load-more
calls, fetch resolutions, query completions or manual switches ever
returns useRestAPI to false; only the address-change reset restores the
Indexed backend. -/
theorem useRest_one_way (address : String) (es : List FeedEvent) (s : FeedState)
    (h : s.useRestAPI = true) :
    (runEvents address es s).1.useRestAPI = true ∧
    ∀ t : FeedState, (resetFeed t).useRestAPI = false :=
  ⟨(useRest_runEvents address es s h).1, fun _ => rfl⟩

/-- Witness for C9: a load-more followed by an empty Rest resolution,
from the sample state moved to the Rest backend. -/
theorem useRest_one_way_witness :
    (runEvents "0xA" [FeedEvent.loadMore, FeedEvent.restResolve []]
        { sampleState with useRestAPI := true }).1.useRestAPI = true ∧
    (resetFeed sampleState).useRestAPI = false := by
  have h := useRest_one_way "0xA" [FeedEvent.loadMore, FeedEvent.restResolve []]
    { sampleState with useRestAPI := true } rfl
  exact ⟨h.1, h.2 sampleState⟩

end AptosPortfolio
